import Mathlib

/-!
Verification of the TapPay backend (`src/main.py`, `src/schemas.py`).

The FastAPI app is shallowly embedded: the MongoDB database becomes an
explicit `DB` state (user collection, transaction collection, a fresh-id
counter standing for ObjectId generation, and a clock standing for
`datetime.now`).  bson `ObjectId` values are modelled as natural numbers;
`str(oid)` / `ObjectId(s)` become the decimal encoder `oidStr` and the
partial parser `parseOid` (a faithful model of a partial-inverse string
encoding of ids: `ObjectId(s)` raises on a malformed string, `parseOid`
returns `none` there).  JWTs are modelled as their signed payload
(`sub` claim and expiry); `jwt.decode` checks expiry against the clock.
bcrypt hashing is modelled by a deterministic injective tag function.
Endpoints that mutate the database return `Except HTTPError result × DB`,
where a raised `HTTPException` leaves the state unchanged; read-only
endpoints return `Except HTTPError result`.
-/

/-- Models a bson ObjectId (an opaque unique document id). -/
abbrev OId := Nat

/-- Decimal digit character for `d < 10`; models a character of `str(ObjectId)`. -/
def digitChar (d : Nat) : Char := Char.ofNat (48 + d)

/-- Big-endian decimal digits of `n`, with structural fuel (any fuel above
`n` yields the digits of `n`). -/
def natDigitsAux (fuel n : Nat) : List Char :=
  match fuel with
  | 0 => []
  | Nat.succ f =>
    if n < 10 then [digitChar n]
    else natDigitsAux f (n / 10) ++ [digitChar (n % 10)]

/-- Big-endian decimal digits of `n`; models the string rendering of an id. -/
def natDigits (n : Nat) : List Char := natDigitsAux (n + 1) n

/-- Models `str(oid)`, the string form of an id. -/
def oidStr (n : OId) : String := String.mk (natDigits n)

/-- Is `c` a decimal digit? -/
def isDigitChar (c : Char) : Bool := decide (48 ≤ c.toNat) && decide (c.toNat ≤ 57)

/-- Numeric value of a digit character. -/
def digitVal (c : Char) : Nat := c.toNat - 48

/-- One step of parsing a digit string, `none` once a bad character is seen. -/
def pushDigit (a : Option Nat) (c : Char) : Option Nat :=
  match a with
  | some n => if isDigitChar c then some (n * 10 + digitVal c) else none
  | none => none

/-- Parse a nonempty digit list; `none` on the empty list or any non-digit. -/
def parseDigits : List Char → Option Nat
  | [] => none
  | cs => cs.foldl pushDigit (some 0)

/-- Models `ObjectId(s)`: parses an id string, `none` models the constructor raising
on a malformed id. -/
def parseOid (s : String) : Option OId := parseDigits s.data

/-- A stored user document (collection `user`). -/
structure UserDoc where
  _id : OId
  name : String
  handle : String
  email : String
  password_hash : String
  profileImg : Option String
  qrCodeUrl : Option String
  dateCreated : Nat
deriving DecidableEq

/-- A stored transaction document (collection `transaction`); sender and
receiver are stored as id strings, as in `send_money`. -/
structure TxDoc where
  _id : OId
  fromUser : String
  toUser : String
  amount : ℚ
  timestamp : Nat
deriving DecidableEq

/-- The database state plus the ambient clock and the next fresh ObjectId. -/
structure DB where
  users : List UserDoc
  txs : List TxDoc
  nextId : OId
  now : Nat
deriving DecidableEq

/-- A decoded JWT payload: `sub` claim (absent models a payload without one)
and absolute expiry. -/
structure Token where
  sub : Option String
  exp : Nat
deriving DecidableEq

/-- A raised `HTTPException`: status code and detail string. -/
structure HTTPError where
  status : Nat
  detail : String
deriving DecidableEq

/-- Request body of `/auth/signup` (pydantic `UserCreate`). -/
structure UserCreate where
  name : String
  handle : String
  email : String
  password : String
  profileImg : Option String
deriving DecidableEq

/-- Request body of `/auth/login` (pydantic `UserLogin`). -/
structure UserLogin where
  email : String
  password : String
deriving DecidableEq

/-- Request body of `/transaction/send` (pydantic `TransactionCreate`). -/
structure TransactionCreate where
  toHandle : Option String
  toUserId : Option String
  amount : ℚ
deriving DecidableEq

/-- The public user view returned by signup, login and profile lookup. -/
structure UserView where
  id : String
  name : String
  handle : String
  profileImg : Option String
  qrCodeUrl : Option String
  dateCreated : Nat
deriving DecidableEq

/-- The transaction view: the stored record with the internal `_id` replaced
by a public string `id`. -/
structure TxView where
  id : String
  fromUser : String
  toUser : String
  amount : ℚ
  timestamp : Nat
deriving DecidableEq

/-- Body returned by signup and login: token plus public user view. -/
structure AuthResponse where
  token : Token
  user : UserView
deriving DecidableEq

/-- Body returned by `/transaction/send`. -/
structure SendResponse where
  status : String
  transaction : TxView
deriving DecidableEq

/-- Body returned by `/dashboard/stats`. -/
structure StatsResponse where
  total_sent : ℚ
  total_received : ℚ
  count_sent : Nat
  count_received : Nat
deriving DecidableEq

/-- A serialized JSON value (enough structure for the response bodies here). -/
inductive JVal where
  | str (s : String)
  | num (q : ℚ)
  | nat (n : Nat)
  | null
deriving DecidableEq

/-- ASCII lowercasing of one character (Python `str.lower` on the ASCII
range relevant to emails). -/
def lowerChar (c : Char) : Char :=
  if 65 ≤ c.toNat ∧ c.toNat ≤ 90 then Char.ofNat (c.toNat + 32) else c

/-- Python `str.lower()`, modelled characterwise. -/
def pyLower (s : String) : String := String.mk (s.data.map lowerChar)

/-- Models `pwd_context.hash` as a deterministic tagging injection. -/
def pwd_hash (pw : String) : String := String.append "bcrypt$" pw

/-- Models `pwd_context.verify`. -/
def pwd_verify (pw h : String) : Bool := h == pwd_hash pw

/-- Constant `ACCESS_TOKEN_EXPIRE_MINUTES = 60 * 24 * 7`. -/
def ACCESS_TOKEN_EXPIRE_MINUTES : Nat := 60 * 24 * 7

/-- Models `create_access_token` on data `\x7b"sub": s\x7d`: payload with `sub = s` and expiry
`now + 7 days` (minutes converted to seconds). -/
def create_access_token (now : Nat) (sub : String) : Token :=
  { sub := some sub, exp := now + ACCESS_TOKEN_EXPIRE_MINUTES * 60 }

/-- The public user view built by the handlers: `id = str(_id)` plus the
non-secret stored fields (the literal response dicts of signup, login and
profile). -/
def publicUserView (u : UserDoc) : UserView :=
  { id := oidStr u._id
    name := u.name
    handle := u.handle
    profileImg := u.profileImg
    qrCodeUrl := u.qrCodeUrl
    dateCreated := u.dateCreated }

/-- JSON value of an optional string field. -/
def optStr : Option String → JVal
  | none => JVal.null
  | some s => JVal.str s

/-- The serialized key/value pairs of the public user view, in response
order. -/
def serializeUserView (v : UserView) : List (String × JVal) :=
  [(("id" : String), JVal.str v.id),
   (("name" : String), JVal.str v.name),
   (("handle" : String), JVal.str v.handle),
   (("profileImg" : String), optStr v.profileImg),
   (("qrCodeUrl" : String), optStr v.qrCodeUrl),
   (("dateCreated" : String), JVal.nat v.dateCreated)]

/-- Dependency `get_current_user`: decode the bearer token (expiry checked by
`jwt.decode`), read the `sub` claim, parse it as an ObjectId and look the
user up.  A malformed `sub` makes `ObjectId(user_id)` raise outside the
`JWTError` handler, surfacing as a 500. -/
def get_current_user (db : DB) (tok : Token) : Except HTTPError UserDoc :=
  if tok.exp ≤ db.now then Except.error ⟨401, "Token decode error"⟩
  else
    match tok.sub with
    | none => Except.error ⟨401, "Invalid token"⟩
    | some user_id =>
      match parseOid user_id with
      | none => Except.error ⟨500, "Internal Server Error"⟩
      | some oid =>
        match db.users.find? (fun u => u._id == oid) with
        | none => Except.error ⟨401, "User not found"⟩
        | some u => Except.ok u

/-- Endpoint `POST /auth/signup`. -/
def signup (db : DB) (p : UserCreate) : Except HTTPError AuthResponse × DB :=
  if (db.users.find? (fun u => u.handle == p.handle)).isSome then
    (Except.error ⟨400, "Handle already taken"⟩, db)
  else if (db.users.find? (fun u => u.email == pyLower p.email)).isSome then
    (Except.error ⟨400, "Email already registered"⟩, db)
  else
    let user_doc : UserDoc :=
      { _id := db.nextId
        name := p.name
        handle := p.handle
        email := pyLower p.email
        password_hash := pwd_hash p.password
        profileImg := p.profileImg
        qrCodeUrl := none
        dateCreated := db.now }
    let token := create_access_token db.now (oidStr user_doc._id)
    (Except.ok { token := token, user := publicUserView user_doc },
     { db with users := db.users ++ [user_doc], nextId := db.nextId + 1 })

/-- Endpoint `POST /auth/login`. -/
def login (db : DB) (p : UserLogin) : Except HTTPError AuthResponse :=
  match db.users.find? (fun u => u.email == pyLower p.email) with
  | none => Except.error ⟨400, "Invalid credentials"⟩
  | some user_doc =>
    if pwd_verify p.password user_doc.password_hash then
      Except.ok { token := create_access_token db.now (oidStr user_doc._id)
                  user := publicUserView user_doc }
    else Except.error ⟨400, "Invalid credentials"⟩

/-- Endpoint `GET /profile/\x7bhandle\x7d`. -/
def get_profile (db : DB) (handle : String) : Except HTTPError UserView :=
  match db.users.find? (fun u => u.handle == handle) with
  | none => Except.error ⟨404, "User not found"⟩
  | some u => Except.ok (publicUserView u)

/-- Python truthiness of an optional string: absent and empty are falsy. -/
def truthy : Option String → Bool
  | none => false
  | some s => !(s == "")

/-- The receiver-resolution prefix of `send_money`: `to_user` after the
`if payload.toUserId / elif payload.toHandle / else` chain, or the raised
error. -/
def resolve_to_user (db : DB) (p : TransactionCreate) :
    Except HTTPError (Option UserDoc) :=
  if truthy p.toUserId then
    match parseOid (p.toUserId.getD ("")) with
    | none => Except.error ⟨400, "Invalid toUserId"⟩
    | some oid => Except.ok (db.users.find? (fun u => u._id == oid))
  else if truthy p.toHandle then
    Except.ok (db.users.find? (fun u => u.handle == p.toHandle.getD ("")))
  else Except.error ⟨400, "Receiver not specified"⟩

/-- Re-key a stored transaction into its public view
(`t["id"] = str(t.pop("_id"))`). -/
def txView (t : TxDoc) : TxView :=
  { id := oidStr t._id
    fromUser := t.fromUser
    toUser := t.toUser
    amount := t.amount
    timestamp := t.timestamp }

/-- Endpoint `POST /transaction/send` for the authenticated `user`. -/
def send_money (db : DB) (user : UserDoc) (p : TransactionCreate) :
    Except HTTPError SendResponse × DB :=
  match resolve_to_user db p with
  | Except.error e => (Except.error e, db)
  | Except.ok none => (Except.error ⟨404, "Receiver not found"⟩, db)
  | Except.ok (some to_user) =>
    let tx_doc : TxDoc :=
      { _id := db.nextId
        fromUser := oidStr user._id
        toUser := oidStr to_user._id
        amount := p.amount
        timestamp := db.now }
    (Except.ok { status := "sent", transaction := txView tx_doc },
     { db with txs := db.txs ++ [tx_doc], nextId := db.nextId + 1 })

/-- Sort key of `.sort("timestamp", -1)`: timestamp descending. -/
def tsDesc (a b : TxDoc) : Prop := b.timestamp ≤ a.timestamp

instance : DecidableRel tsDesc := fun a b => Nat.decLe b.timestamp a.timestamp

instance : IsTotal TxDoc tsDesc :=
  ⟨fun a b => (Nat.le_total b.timestamp a.timestamp).imp id id⟩

instance : IsTrans TxDoc tsDesc :=
  ⟨fun _ _ _ hab hbc => le_trans hbc hab⟩

/-- Endpoint `GET /transaction/history/\x7buserId\x7d` for the authenticated `user`. -/
def get_history (db : DB) (user : UserDoc) (userId : String) :
    Except HTTPError (List TxView) :=
  if oidStr user._id ≠ userId then Except.error ⟨403, "Forbidden"⟩
  else
    Except.ok
      (((db.txs.filter
          (fun t => t.fromUser == userId || t.toUser == userId)).insertionSort
            tsDesc).map txView)

/-- Endpoint `GET /dashboard/stats` for the authenticated `user`: the `$match`/`$group`
pipeline; an empty aggregation result falls back to the zero defaults. -/
def dashboard_stats (db : DB) (user : UserDoc) : StatsResponse :=
  let user_id := oidStr user._id
  let matched :=
    db.txs.filter (fun t => t.fromUser == user_id || t.toUser == user_id)
  match matched with
  | [] => { total_sent := 0, total_received := 0, count_sent := 0, count_received := 0 }
  | _ =>
    { total_sent :=
        (matched.map (fun t => if t.fromUser == user_id then t.amount else 0)).sum
      total_received :=
        (matched.map (fun t => if t.toUser == user_id then t.amount else 0)).sum
      count_sent :=
        (matched.map (fun t => if t.fromUser == user_id then (1 : Nat) else 0)).sum
      count_received :=
        (matched.map (fun t => if t.toUser == user_id then (1 : Nat) else 0)).sum }

/-- The pydantic pattern `^[a-z0-9_]\x7b3,20\x7d$` on `UserCreate.handle`. -/
def validHandle (h : String) : Bool :=
  decide (3 ≤ h.data.length) && decide (h.data.length ≤ 20) &&
    h.data.all (fun c =>
      (decide (97 ≤ c.toNat) && decide (c.toNat ≤ 122)) ||
      (decide (48 ≤ c.toNat) && decide (c.toNat ≤ 57)) || c == '_')

/-- Modelled from the spec: the request-validation layer of the HTTP framework is
not part of `src/`; per the error taxonomy of the spec a `ValidationError`
(malformed input, e.g. bad handle pattern) is surfaced as a 400 before the
handler runs.  The handle constraint itself is the pydantic `Field` pattern
of `UserCreate` in `src/main.py`. -/
def signupEndpoint (db : DB) (p : UserCreate) : Except HTTPError AuthResponse × DB :=
  if validHandle p.handle then signup db p
  else (Except.error ⟨400, "ValidationError"⟩, db)

/-- Modelled from the spec: the request-validation layer of the HTTP framework is
not part of `src/`; per the error taxonomy of the spec a `ValidationError`
(non-positive amount) is surfaced as a 400 before the handler runs.  The
amount constraint itself is the pydantic `Field(..., gt=0)` of
`TransactionCreate` in `src/main.py`. -/
def sendEndpoint (db : DB) (user : UserDoc) (p : TransactionCreate) :
    Except HTTPError SendResponse × DB :=
  if 0 < p.amount then send_money db user p
  else (Except.error ⟨400, "ValidationError"⟩, db)

/-! ### Id string encoding: `parseOid` inverts `oidStr` -/

theorem digitChar_spec (d : Nat) (h : d < 10) :
    isDigitChar (digitChar d) = true ∧ digitVal (digitChar d) = d := by
  interval_cases d <;> exact ⟨by decide, by decide⟩

theorem natDigitsAux_ne_nil (fuel n : Nat) (h : n < fuel) :
    natDigitsAux fuel n ≠ [] := by
  cases fuel with
  | zero => omega
  | succ f =>
    simp only [natDigitsAux]
    split
    · simp
    · simp

theorem natDigits_ne_nil (n : Nat) : natDigits n ≠ [] :=
  natDigitsAux_ne_nil (n + 1) n (Nat.lt_succ_self n)

theorem foldl_pushDigit_natDigitsAux (fuel : Nat) :
    ∀ n a : Nat, n < fuel →
      (natDigitsAux fuel n).foldl pushDigit (some a)
        = some (a * 10 ^ (natDigitsAux fuel n).length + n) := by
  induction fuel with
  | zero => intro n a h; omega
  | succ f ih =>
    intro n a h
    simp only [natDigitsAux]
    by_cases h10 : n < 10
    · have hd := digitChar_spec n h10
      simp [if_pos h10, List.foldl, pushDigit, hd.1, hd.2]
    · have hlt : n / 10 < f := by omega
      have hd := digitChar_spec (n % 10) (Nat.mod_lt n (by omega))
      simp only [if_neg h10, List.foldl_append, List.foldl, ih (n / 10) a hlt,
        pushDigit, hd.1, hd.2, if_true, List.length_append, List.length_cons,
        List.length_nil, Nat.zero_add, Option.some.injEq]
      have hmod : n / 10 * 10 + n % 10 = n := by omega
      calc (a * 10 ^ (natDigitsAux f (n / 10)).length + n / 10) * 10 + n % 10
          = a * 10 ^ (natDigitsAux f (n / 10)).length * 10
              + (n / 10 * 10 + n % 10) := by ring
        _ = a * 10 ^ ((natDigitsAux f (n / 10)).length + 1) + n := by
              rw [hmod, pow_succ]; ring

theorem foldl_pushDigit_natDigits (n : Nat) :
    ∀ a : Nat, (natDigits n).foldl pushDigit (some a)
      = some (a * 10 ^ (natDigits n).length + n) := fun a =>
  foldl_pushDigit_natDigitsAux (n + 1) n a (Nat.lt_succ_self n)

theorem parseOid_oidStr (n : OId) : parseOid (oidStr n) = some n := by
  have hne := natDigits_ne_nil n
  have hf := foldl_pushDigit_natDigits n 0
  show parseDigits (natDigits n) = some n
  cases hd : natDigits n with
  | nil => exact absurd hd hne
  | cons c cs =>
    show (c :: cs).foldl pushDigit (some 0) = some n
    rw [← hd, hf]
    simp

/-! ### Aggregation helpers -/

theorem filter_cond_sum {M : Type} [AddCommMonoid M] (p q : TxDoc → Bool)
    (v : TxDoc → M) (hpq : ∀ t, p t = true → q t = true) (l : List TxDoc) :
    ((l.filter q).map (fun t => if p t then v t else 0)).sum
      = ((l.filter p).map v).sum := by
  induction l with
  | nil => rfl
  | cons t l ih =>
    by_cases hp : p t = true
    · have hq := hpq t hp
      simp [List.filter_cons, hp, hq, ih]
    · by_cases hq : q t = true <;>
        simp [List.filter_cons, hp, hq, ih]

theorem filter_sub_nil (p q : TxDoc → Bool) (hpq : ∀ t, p t = true → q t = true)
    (l : List TxDoc) (h : l.filter q = []) : l.filter p = [] := by
  rw [List.filter_eq_nil_iff] at h ⊢
  exact fun a ha hpa => h a ha (hpq a hpa)

/-! ### Concrete fixtures for witnesses -/

/-- Fixture: a first stored user. -/
def annUser : UserDoc :=
  { _id := 1, name := "Ann", handle := "ann1", email := "a@x.com",
    password_hash := pwd_hash ("pw"), profileImg := none, qrCodeUrl := none,
    dateCreated := 5 }

/-- Fixture: a second stored user. -/
def bobUser : UserDoc :=
  { _id := 2, name := "Bob", handle := "bob42", email := "b@x.com",
    password_hash := pwd_hash ("pw2"), profileImg := none, qrCodeUrl := none,
    dateCreated := 6 }

/-- Fixture: a stored transaction from Ann to Bob. -/
def txOne : TxDoc :=
  { _id := 7, fromUser := oidStr 1, toUser := oidStr 2, amount := 5,
    timestamp := 50 }

/-- Fixture: a database with the two users and one transaction. -/
def dbTwo : DB :=
  { users := [annUser, bobUser], txs := [txOne], nextId := 8, now := 100 }

/-! ### C5 -/

/-- C5: an authenticated `GET /transaction/history/\x7buserId\x7d` with a path
`userId` different from the own id of the authenticated user fails with 403
Forbidden and returns no transaction data; with the own id of that user it
succeeds. -/
theorem history_requires_matching_auth (db : DB) (user : UserDoc)
    (userId : String) :
    (userId ≠ oidStr user._id →
      get_history db user userId = Except.error ⟨403, "Forbidden"⟩) ∧
    (userId = oidStr user._id →
      ∃ l, get_history db user userId = Except.ok l) := by
  constructor
  · intro h
    unfold get_history
    rw [if_pos (fun he => h he.symm)]
  · intro h
    unfold get_history
    rw [if_neg (fun he => he h.symm)]
    exact ⟨_, rfl⟩

/-- Witness for C5 at a concrete database. -/
theorem history_requires_matching_auth_witness :
    get_history dbTwo annUser ("999") = Except.error ⟨403, "Forbidden"⟩ ∧
    ∃ l, get_history dbTwo annUser (oidStr 1) = Except.ok l :=
  ⟨(history_requires_matching_auth dbTwo annUser ("999")).1 (by decide),
   (history_requires_matching_auth dbTwo annUser (oidStr 1)).2 rfl⟩

/-! ### C9 -/

/-- C9: a signup whose handle does not match `^[a-z0-9_]\x7b3,20\x7d$` and a
send whose amount is not strictly positive are rejected as validation
errors with status 400, before the handler runs. -/
theorem bad_handle_or_amount_rejected :
    (∀ db p, validHandle p.handle = false →
      signupEndpoint db p = (Except.error ⟨400, "ValidationError"⟩, db)) ∧
    (∀ db user p, ¬ (0 < p.amount) →
      sendEndpoint db user p = (Except.error ⟨400, "ValidationError"⟩, db)) := by
  constructor
  · intro db p h
    simp [signupEndpoint, h]
  · intro db user p h
    simp [sendEndpoint, if_neg h]

/-- Witness for C9: an uppercase two-letter handle and a zero amount. -/
theorem bad_handle_or_amount_rejected_witness :
    signupEndpoint dbTwo
        { name := "Cy", handle := "AB", email := "c@x.com", password := "p",
          profileImg := none }
      = (Except.error ⟨400, "ValidationError"⟩, dbTwo) ∧
    sendEndpoint dbTwo annUser
        { toHandle := some ("bob42"), toUserId := none, amount := 0 }
      = (Except.error ⟨400, "ValidationError"⟩, dbTwo) :=
  ⟨bad_handle_or_amount_rejected.1 dbTwo
      { name := "Cy", handle := "AB", email := "c@x.com", password := "p",
        profileImg := none } (by decide),
   bad_handle_or_amount_rejected.2 dbTwo annUser
      { toHandle := some ("bob42"), toUserId := none, amount := 0 }
      (by norm_num)⟩

/-! ### C10 -/

/-- C10: an empty-string `toUserId` is falsy, so `send_money` treats it as
absent: resolution falls through to `toHandle`, and when `toHandle` is also
absent or empty the request fails 400 "Receiver not specified"; the empty
string is never looked up nor rejected as malformed. -/
theorem empty_toUserId_treated_as_absent (db : DB) (user : UserDoc)
    (p : TransactionCreate) (h : p.toUserId = some ("")) :
    send_money db user p = send_money db user { p with toUserId := none } ∧
    ((p.toHandle = none ∨ p.toHandle = some ("")) →
      send_money db user p = (Except.error ⟨400, "Receiver not specified"⟩, db)) := by
  have ht : truthy p.toUserId = false := by rw [h]; rfl
  have hr : resolve_to_user db p
      = resolve_to_user db { p with toUserId := none } := by
    unfold resolve_to_user
    rw [ht]
    rfl
  constructor
  · unfold send_money
    rw [hr]
  · intro hh
    have hth : truthy p.toHandle = false := by
      rcases hh with hh | hh <;> rw [hh] <;> rfl
    unfold send_money resolve_to_user
    rw [ht, hth]
    rfl

/-- Witness for C10: `toUserId = ""` with a valid handle behaves like an
absent `toUserId`, and with no handle fails 400. -/
theorem empty_toUserId_treated_as_absent_witness :
    send_money dbTwo annUser
        { toHandle := some ("bob42"), toUserId := some (""), amount := 2 }
      = send_money dbTwo annUser
          { toHandle := some ("bob42"), toUserId := none, amount := 2 } ∧
    send_money dbTwo annUser
        { toHandle := none, toUserId := some (""), amount := 2 }
      = (Except.error ⟨400, "Receiver not specified"⟩, dbTwo) :=
  ⟨(empty_toUserId_treated_as_absent dbTwo annUser
      { toHandle := some ("bob42"), toUserId := some (""), amount := 2 } rfl).1,
   (empty_toUserId_treated_as_absent dbTwo annUser
      { toHandle := none, toUserId := some (""), amount := 2 } rfl).2
      (Or.inl rfl)⟩

/-! ### C6 -/

/-- C6: receiver resolution in `send_money`: a non-empty `toUserId` takes
precedence over `toHandle`; with neither given the request fails 400
"Receiver not specified"; a lookup that yields no user fails 404
"Receiver not found"; a malformed non-empty `toUserId` fails 400
"Invalid toUserId"; in every failure case the database is unchanged, so no
transaction record is created. -/
theorem send_receiver_resolution (db : DB) (user : UserDoc)
    (p : TransactionCreate) :
    (∀ i, p.toUserId = some i → i ≠ "" →
      send_money db user p = send_money db user { p with toHandle := none }) ∧
    (p.toUserId = none → p.toHandle = none →
      send_money db user p
        = (Except.error ⟨400, "Receiver not specified"⟩, db)) ∧
    (∀ i oid, p.toUserId = some i → i ≠ "" → parseOid i = some oid →
      db.users.find? (fun u => u._id == oid) = none →
      send_money db user p = (Except.error ⟨404, "Receiver not found"⟩, db)) ∧
    (∀ h, (p.toUserId = none ∨ p.toUserId = some ("")) → p.toHandle = some h →
      h ≠ "" → db.users.find? (fun u => u.handle == h) = none →
      send_money db user p = (Except.error ⟨404, "Receiver not found"⟩, db)) ∧
    (∀ i, p.toUserId = some i → i ≠ "" → parseOid i = none →
      send_money db user p = (Except.error ⟨400, "Invalid toUserId"⟩, db)) := by
  refine ⟨?_, ?_, ?_, ?_, ?_⟩
  · intro i hi hne
    have ht : truthy p.toUserId = true := by
      rw [hi]; simp [truthy, hne]
    unfold send_money resolve_to_user
    dsimp only
    rw [ht]
    simp
  · intro h1 h2
    unfold send_money resolve_to_user
    rw [h1, h2]
    rfl
  · intro i oid hi hne hparse hfind
    have ht : truthy p.toUserId = true := by
      rw [hi]; simp [truthy, hne]
    have hget : p.toUserId.getD ("") = i := by rw [hi]; rfl
    unfold send_money resolve_to_user
    rw [ht, hget, hparse]
    simp [hfind]
  · intro h hid hh hne hfind
    have ht : truthy p.toUserId = false := by
      rcases hid with hid | hid <;> rw [hid] <;> rfl
    have hth : truthy p.toHandle = true := by
      rw [hh]; simp [truthy, hne]
    have hget : p.toHandle.getD ("") = h := by rw [hh]; rfl
    unfold send_money resolve_to_user
    rw [ht, hth, hget, hfind]
    rfl
  · intro i hi hne hparse
    have ht : truthy p.toUserId = true := by
      rw [hi]; simp [truthy, hne]
    have hget : p.toUserId.getD ("") = i := by rw [hi]; rfl
    unfold send_money resolve_to_user
    rw [ht, hget, hparse]
    rfl

/-- Witness for C6 at concrete requests against the two-user database. -/
theorem send_receiver_resolution_witness :
    send_money dbTwo annUser
        { toHandle := some ("bob42"), toUserId := some (oidStr 2), amount := 3 }
      = send_money dbTwo annUser
          { toHandle := none, toUserId := some (oidStr 2), amount := 3 } ∧
    send_money dbTwo annUser { toHandle := none, toUserId := none, amount := 3 }
      = (Except.error ⟨400, "Receiver not specified"⟩, dbTwo) ∧
    send_money dbTwo annUser
        { toHandle := none, toUserId := some (oidStr 4), amount := 3 }
      = (Except.error ⟨404, "Receiver not found"⟩, dbTwo) ∧
    send_money dbTwo annUser
        { toHandle := some ("ghost"), toUserId := none, amount := 3 }
      = (Except.error ⟨404, "Receiver not found"⟩, dbTwo) ∧
    send_money dbTwo annUser
        { toHandle := none, toUserId := some ("zz"), amount := 3 }
      = (Except.error ⟨400, "Invalid toUserId"⟩, dbTwo) :=
  ⟨(send_receiver_resolution dbTwo annUser
      { toHandle := some ("bob42"), toUserId := some (oidStr 2), amount := 3 }).1
      (oidStr 2) rfl (by decide),
   (send_receiver_resolution dbTwo annUser
      { toHandle := none, toUserId := none, amount := 3 }).2.1 rfl rfl,
   (send_receiver_resolution dbTwo annUser
      { toHandle := none, toUserId := some (oidStr 4), amount := 3 }).2.2.1
      (oidStr 4) 4 rfl (by decide) (by decide) (by decide),
   (send_receiver_resolution dbTwo annUser
      { toHandle := some ("ghost"), toUserId := none, amount := 3 }).2.2.2.1
      ("ghost") (Or.inl rfl) rfl (by decide) (by decide),
   (send_receiver_resolution dbTwo annUser
      { toHandle := none, toUserId := some ("zz"), amount := 3 }).2.2.2.2
      ("zz") rfl (by decide) (by decide)⟩

/-! ### C4 -/

/-- C4: every user view serialized by signup, login and profile lookup has
exactly the keys id, name, handle, profileImg, qrCodeUrl, dateCreated;
`password_hash` is not among them, and the view does not depend on the
stored password hash at all, so the hash never appears in a response
body. -/
theorem user_view_never_leaks_hash :
    (∀ v : UserView, (serializeUserView v).map Prod.fst
      = [("id" : String), ("name" : String), ("handle" : String),
         ("profileImg" : String), ("qrCodeUrl" : String),
         ("dateCreated" : String)] ∧
      ("password_hash" : String) ∉ (serializeUserView v).map Prod.fst) ∧
    (∀ u h, publicUserView { u with password_hash := h } = publicUserView u) ∧
    (∀ db p resp db2, signup db p = (Except.ok resp, db2) →
      ∃ u, resp.user = publicUserView u) ∧
    (∀ db p resp, login db p = Except.ok resp →
      ∃ u, resp.user = publicUserView u) ∧
    (∀ db h v, get_profile db h = Except.ok v → ∃ u, v = publicUserView u) := by
  refine ⟨fun v => ⟨rfl, ?_⟩, fun u h => rfl, ?_, ?_, ?_⟩
  · show ("password_hash" : String) ∉
      [("id" : String), ("name" : String), ("handle" : String),
       ("profileImg" : String), ("qrCodeUrl" : String),
       ("dateCreated" : String)]
    decide
  · intro db p resp db2 h
    unfold signup at h
    by_cases h1 : (db.users.find? (fun u => u.handle == p.handle)).isSome
    · rw [if_pos h1] at h
      simp at h
    · rw [if_neg h1] at h
      by_cases h2 :
          (db.users.find? (fun u => u.email == pyLower p.email)).isSome
      · rw [if_pos h2] at h
        simp at h
      · rw [if_neg h2] at h
        rw [Prod.mk.injEq] at h
        obtain ⟨hr, _⟩ := h
        injection hr with hr
        exact ⟨_, by rw [← hr]⟩
  · intro db p resp h
    unfold login at h
    cases hf : db.users.find? (fun u => u.email == pyLower p.email) with
    | none => rw [hf] at h; exact absurd h (by simp)
    | some u =>
      rw [hf] at h
      dsimp only at h
      by_cases hv : pwd_verify p.password u.password_hash = true
      · rw [if_pos hv] at h
        injection h with h
        exact ⟨u, by rw [← h]⟩
      · rw [if_neg hv] at h
        exact absurd h (by simp)
  · intro db h v hp
    unfold get_profile at hp
    cases hf : db.users.find? (fun u => u.handle == h) with
    | none => rw [hf] at hp; exact absurd hp (by simp)
    | some u =>
      rw [hf] at hp
      injection hp with hp
      exact ⟨u, by rw [← hp]⟩

/-- Witness for C4: concrete login and profile responses are public views. -/
theorem user_view_never_leaks_hash_witness :
    (∃ u, ({ token := create_access_token 100 (oidStr 1),
             user := publicUserView annUser } : AuthResponse).user
        = publicUserView u) ∧
    ∃ u, publicUserView annUser = publicUserView u :=
  ⟨user_view_never_leaks_hash.2.2.2.1 dbTwo
      { email := "a@x.com", password := "pw" }
      { token := create_access_token 100 (oidStr 1),
        user := publicUserView annUser } rfl,
   user_view_never_leaks_hash.2.2.2.2 dbTwo ("ann1") (publicUserView annUser)
     rfl⟩

/-! ### C8 -/

/-- C8 counterexample: at a concrete signup whose (lowercased) email is
already stored but whose handle is also taken, signup fails with the
duplicate-handle error rather than the duplicate-email error, so the
duplicate-email outcome does not hold regardless of the other fields. -/
theorem duplicate_email_not_regardless :
    (∃ u ∈ dbTwo.users, u.email = pyLower ("a@x.com")) ∧
    (signup dbTwo
        { name := "Imp", handle := "ann1", email := "a@x.com",
          password := "zz", profileImg := none }).1
      = Except.error ⟨400, "Handle already taken"⟩ ∧
    (⟨400, "Handle already taken"⟩ : HTTPError)
      ≠ (⟨400, "Email already registered"⟩ : HTTPError) :=
  ⟨⟨annUser, by decide, by decide⟩, rfl, by decide⟩

/-- C8 (amended): a signup whose handle is already stored always fails with
the duplicate-handle error (400) and creates no user; a signup whose
lowercased email is already stored fails with the duplicate-email error
(400) and creates no user provided its handle is not also taken — when both
are duplicates the handle check runs first and the duplicate-handle error
wins. -/
theorem signup_duplicate_checks (db : DB) (p : UserCreate) :
    ((∃ u ∈ db.users, u.handle = p.handle) →
      signup db p = (Except.error ⟨400, "Handle already taken"⟩, db)) ∧
    ((∀ u ∈ db.users, u.handle ≠ p.handle) →
      (∃ u ∈ db.users, u.email = pyLower p.email) →
      signup db p = (Except.error ⟨400, "Email already registered"⟩, db)) := by
  constructor
  · rintro ⟨u, hu, he⟩
    have h1 : (db.users.find? (fun v => v.handle == p.handle)).isSome := by
      rw [List.find?_isSome]
      exact ⟨u, hu, by simp [he]⟩
    unfold signup
    rw [if_pos h1]
  · intro hno
    rintro ⟨u, hu, he⟩
    have h1 : ¬ (db.users.find? (fun v => v.handle == p.handle)).isSome := by
      rw [List.find?_isSome]
      rintro ⟨v, hv, hbe⟩
      exact hno v hv (by simpa using hbe)
    have h2 : (db.users.find? (fun v => v.email == pyLower p.email)).isSome := by
      rw [List.find?_isSome]
      exact ⟨u, hu, by simp [he]⟩
    unfold signup
    rw [if_neg h1, if_pos h2]

/-- Witness for C8 at concrete duplicate-handle and duplicate-email
signups. -/
theorem signup_duplicate_checks_witness :
    signup dbTwo
        { name := "Dee", handle := "ann1", email := "d@x.com",
          password := "zz", profileImg := none }
      = (Except.error ⟨400, "Handle already taken"⟩, dbTwo) ∧
    signup dbTwo
        { name := "Dee", handle := "newby", email := "a@x.com",
          password := "zz", profileImg := none }
      = (Except.error ⟨400, "Email already registered"⟩, dbTwo) :=
  ⟨(signup_duplicate_checks dbTwo
      { name := "Dee", handle := "ann1", email := "d@x.com",
        password := "zz", profileImg := none }).1
      ⟨annUser, by decide, by decide⟩,
   (signup_duplicate_checks dbTwo
      { name := "Dee", handle := "newby", email := "a@x.com",
        password := "zz", profileImg := none }).2
      (by decide) ⟨annUser, by decide, by decide⟩⟩

/-! ### C3 -/

theorem sum_map_one (l : List TxDoc) : (l.map (fun _ => (1 : Nat))).sum = l.length := by
  induction l with
  | nil => rfl
  | cons a l ih => simp [ih]; omega

theorem dashboard_stats_eq (db : DB) (user : UserDoc) :
    dashboard_stats db user =
      { total_sent :=
          ((db.txs.filter (fun t =>
              t.fromUser == oidStr user._id || t.toUser == oidStr user._id)).map
            (fun t => if t.fromUser == oidStr user._id then t.amount else 0)).sum
        total_received :=
          ((db.txs.filter (fun t =>
              t.fromUser == oidStr user._id || t.toUser == oidStr user._id)).map
            (fun t => if t.toUser == oidStr user._id then t.amount else 0)).sum
        count_sent :=
          ((db.txs.filter (fun t =>
              t.fromUser == oidStr user._id || t.toUser == oidStr user._id)).map
            (fun t => if t.fromUser == oidStr user._id then (1 : Nat) else 0)).sum
        count_received :=
          ((db.txs.filter (fun t =>
              t.fromUser == oidStr user._id || t.toUser == oidStr user._id)).map
            (fun t => if t.toUser == oidStr user._id then (1 : Nat) else 0)).sum } := by
  unfold dashboard_stats
  dsimp only
  cases hq : db.txs.filter
      (fun t => t.fromUser == oidStr user._id || t.toUser == oidStr user._id) with
  | nil => simp
  | cons a l => rfl

/-- C3: `/dashboard/stats` returns `total_sent` equal to the sum of amounts
of all ledger records with `fromUser = str(u._id)`, `total_received` the sum
where `toUser` matches, and the two counters equal to the corresponding
record counts; with no matching records at all the response is the
four-zero record (all fields present). -/
theorem stats_are_ledger_aggregates (db : DB) (user : UserDoc) :
    (dashboard_stats db user).total_sent
      = ((db.txs.filter (fun t => t.fromUser == oidStr user._id)).map
          TxDoc.amount).sum ∧
    (dashboard_stats db user).total_received
      = ((db.txs.filter (fun t => t.toUser == oidStr user._id)).map
          TxDoc.amount).sum ∧
    (dashboard_stats db user).count_sent
      = (db.txs.filter (fun t => t.fromUser == oidStr user._id)).length ∧
    (dashboard_stats db user).count_received
      = (db.txs.filter (fun t => t.toUser == oidStr user._id)).length ∧
    (db.txs.filter (fun t =>
        t.fromUser == oidStr user._id || t.toUser == oidStr user._id) = [] →
      dashboard_stats db user
        = { total_sent := 0, total_received := 0, count_sent := 0,
            count_received := 0 }) := by
  have himpF : ∀ t : TxDoc, (t.fromUser == oidStr user._id) = true →
      (t.fromUser == oidStr user._id || t.toUser == oidStr user._id) = true := by
    intro t h; rw [h]; rfl
  have himpT : ∀ t : TxDoc, (t.toUser == oidStr user._id) = true →
      (t.fromUser == oidStr user._id || t.toUser == oidStr user._id) = true := by
    intro t h; rw [h]; simp
  rw [dashboard_stats_eq]
  refine ⟨?_, ?_, ?_, ?_, ?_⟩
  · exact filter_cond_sum _ _ TxDoc.amount himpF db.txs
  · exact filter_cond_sum _ _ TxDoc.amount himpT db.txs
  · rw [filter_cond_sum _ _ (fun _ => (1 : Nat)) himpF db.txs, sum_map_one]
  · rw [filter_cond_sum _ _ (fun _ => (1 : Nat)) himpT db.txs, sum_map_one]
  · intro h
    rw [h]
    rfl

/-- Witness for C3 at the one-transaction database. -/
theorem stats_are_ledger_aggregates_witness :
    (dashboard_stats dbTwo annUser).total_sent
      = ((dbTwo.txs.filter (fun t => t.fromUser == oidStr annUser._id)).map
          TxDoc.amount).sum ∧
    (dashboard_stats dbTwo annUser).count_sent = 1 ∧
    dashboard_stats dbTwo { annUser with _id := 5 }
      = { total_sent := 0, total_received := 0, count_sent := 0,
          count_received := 0 } :=
  ⟨(stats_are_ledger_aggregates dbTwo annUser).1,
   by rw [(stats_are_ledger_aggregates dbTwo annUser).2.2.1]; decide,
   (stats_are_ledger_aggregates dbTwo
      { annUser with _id := 5 }).2.2.2.2 (by decide)⟩

/-! ### C7 -/

/-- C7: a successful history response is exactly the ledger records in which
the user appears as sender or receiver — as a permutation of their public
views, `_id` re-keyed into the string `id` field — ordered by timestamp
descending. -/
theorem history_is_sorted_user_records (db : DB) (user : UserDoc)
    (userId : String) (l : List TxView)
    (h : get_history db user userId = Except.ok l) :
    l.Perm ((db.txs.filter
        (fun t => t.fromUser == userId || t.toUser == userId)).map txView) ∧
    List.Sorted (fun a b : TxView => b.timestamp ≤ a.timestamp) l := by
  unfold get_history at h
  by_cases hid : oidStr user._id ≠ userId
  · rw [if_pos hid] at h
    exact absurd h (by simp)
  · rw [if_neg hid] at h
    injection h with h
    subst h
    constructor
    · exact (List.perm_insertionSort tsDesc _).map txView
    · exact List.Pairwise.map txView (fun a b hab => hab)
        (List.sorted_insertionSort tsDesc _)

/-- Witness for C7: the history of Ann at the one-transaction database. -/
theorem history_is_sorted_user_records_witness :
    List.Perm [txView txOne] ((dbTwo.txs.filter
        (fun t => t.fromUser == oidStr 1 || t.toUser == oidStr 1)).map txView) ∧
    List.Sorted (fun a b : TxView => b.timestamp ≤ a.timestamp)
      [txView txOne] :=
  history_is_sorted_user_records dbTwo annUser (oidStr 1) [txView txOne] rfl

/-! ### C2 -/

theorem get_history_own_mem (db : DB) (u : UserDoc) (t : TxDoc)
    (hmem : t ∈ db.txs)
    (hside : t.fromUser = oidStr u._id ∨ t.toUser = oidStr u._id) :
    ∃ l, get_history db u (oidStr u._id) = Except.ok l ∧ txView t ∈ l := by
  have hg : get_history db u (oidStr u._id)
      = Except.ok (((db.txs.filter (fun s =>
          s.fromUser == oidStr u._id || s.toUser == oidStr u._id)).insertionSort
            tsDesc).map txView) := by
    unfold get_history
    rw [if_neg (fun hh => hh rfl)]
  refine ⟨_, hg, ?_⟩
  rw [List.mem_map]
  refine ⟨t, ?_, rfl⟩
  rw [List.mem_insertionSort, List.mem_filter]
  refine ⟨hmem, ?_⟩
  rcases hside with hs | hs <;> rw [hs] <;> simp

/-- C2: for a positive amount and a receiver reference resolving to an
existing user, `send_money` appends exactly one new ledger record with that
amount, returns it with status "sent", and the record subsequently appears
in both the history of the sender and the history of the receiver. -/
theorem send_appends_record_in_histories (db : DB) (user r : UserDoc)
    (p : TransactionCreate) (hamt : 0 < p.amount)
    (hres : resolve_to_user db p = Except.ok (some r)) :
    ∃ tx : TxDoc,
      send_money db user p
        = (Except.ok { status := "sent", transaction := txView tx },
           { db with txs := db.txs ++ [tx], nextId := db.nextId + 1 }) ∧
      tx.amount = p.amount ∧
      tx.fromUser = oidStr user._id ∧
      tx.toUser = oidStr r._id ∧
      (∃ l, get_history
          { db with txs := db.txs ++ [tx], nextId := db.nextId + 1 }
          user (oidStr user._id) = Except.ok l ∧ txView tx ∈ l) ∧
      (∃ l, get_history
          { db with txs := db.txs ++ [tx], nextId := db.nextId + 1 }
          r (oidStr r._id) = Except.ok l ∧ txView tx ∈ l) := by
  refine ⟨{ _id := db.nextId, fromUser := oidStr user._id,
            toUser := oidStr r._id, amount := p.amount,
            timestamp := db.now }, ?_, rfl, rfl, rfl, ?_, ?_⟩
  · unfold send_money
    rw [hres]
  · exact get_history_own_mem _ user _ (by simp) (Or.inl rfl)
  · exact get_history_own_mem _ r _ (by simp) (Or.inr rfl)

/-- Witness for C2: Bob sends 7 to Ann by handle. -/
theorem send_appends_record_in_histories_witness :
    ∃ tx : TxDoc,
      send_money dbTwo bobUser
          { toHandle := some ("ann1"), toUserId := none, amount := 7 }
        = (Except.ok { status := "sent", transaction := txView tx },
           { dbTwo with txs := dbTwo.txs ++ [tx], nextId := dbTwo.nextId + 1 }) ∧
      tx.amount = 7 ∧
      tx.fromUser = oidStr bobUser._id ∧
      tx.toUser = oidStr annUser._id ∧
      (∃ l, get_history
          { dbTwo with txs := dbTwo.txs ++ [tx], nextId := dbTwo.nextId + 1 }
          bobUser (oidStr bobUser._id) = Except.ok l ∧ txView tx ∈ l) ∧
      (∃ l, get_history
          { dbTwo with txs := dbTwo.txs ++ [tx], nextId := dbTwo.nextId + 1 }
          annUser (oidStr annUser._id) = Except.ok l ∧ txView tx ∈ l) :=
  send_appends_record_in_histories dbTwo bobUser annUser
    { toHandle := some ("ann1"), toUserId := none, amount := 7 }
    (by norm_num) rfl

/-! ### C1 -/

theorem get_current_user_token_of_find (db : DB) (oid : OId) (u : UserDoc)
    (hfind : db.users.find? (fun v => v._id == oid) = some u) :
    get_current_user db (create_access_token db.now (oidStr oid))
      = Except.ok u := by
  unfold get_current_user create_access_token
  dsimp only
  rw [if_neg (by unfold ACCESS_TOKEN_EXPIRE_MINUTES; omega)]
  rw [parseOid_oidStr]
  dsimp only
  rw [hfind]

/-- C1: for a successful signup against a store whose ids are all distinct
from the fresh id, the `sub` claim of the returned token is the string form
of the id of the created user, and decoding that token and resolving its subject in
the user store yields exactly the created record. -/
theorem signup_token_resolves_created_user (db : DB) (p : UserCreate)
    (resp : AuthResponse) (db2 : DB)
    (hfresh : ∀ u ∈ db.users, u._id ≠ db.nextId)
    (h : signup db p = (Except.ok resp, db2)) :
    resp.token.sub = some (oidStr db.nextId) ∧
    ∃ newUser : UserDoc,
      db2.users = db.users ++ [newUser] ∧
      newUser._id = db.nextId ∧
      resp.user = publicUserView newUser ∧
      get_current_user db2 resp.token = Except.ok newUser := by
  unfold signup at h
  by_cases h1 : (db.users.find? (fun u => u.handle == p.handle)).isSome
  · rw [if_pos h1] at h
    simp at h
  · rw [if_neg h1] at h
    by_cases h2 : (db.users.find? (fun u => u.email == pyLower p.email)).isSome
    · rw [if_pos h2] at h
      simp at h
    · rw [if_neg h2] at h
      rw [Prod.mk.injEq] at h
      obtain ⟨hr, hdb⟩ := h
      injection hr with hr
      subst hr
      subst hdb
      have hfind : (db.users ++
          [({ _id := db.nextId, name := p.name, handle := p.handle,
              email := pyLower p.email, password_hash := pwd_hash p.password,
              profileImg := p.profileImg, qrCodeUrl := none,
              dateCreated := db.now } : UserDoc)]).find?
            (fun v => v._id == db.nextId)
          = some { _id := db.nextId, name := p.name, handle := p.handle,
                   email := pyLower p.email,
                   password_hash := pwd_hash p.password,
                   profileImg := p.profileImg, qrCodeUrl := none,
                   dateCreated := db.now } := by
        rw [List.find?_append]
        have hnone : db.users.find? (fun v => v._id == db.nextId) = none := by
          rw [List.find?_eq_none]
          intro x hx
          simpa using hfresh x hx
        rw [hnone]
        simp
      exact ⟨rfl, _, rfl, rfl, rfl,
        get_current_user_token_of_find _ db.nextId _ hfind⟩

/-- Fixture: signup request for a third user. -/
def cyCreate : UserCreate :=
  { name := "Cy", handle := "cyrus", email := "c@x.com", password := "secret",
    profileImg := none }

/-- Fixture: the document created by `signup dbTwo cyCreate`. -/
def cyDoc : UserDoc :=
  { _id := 8, name := "Cy", handle := "cyrus", email := "c@x.com",
    password_hash := pwd_hash ("secret"), profileImg := none,
    qrCodeUrl := none, dateCreated := 100 }

/-- Fixture: the response of `signup dbTwo cyCreate`. -/
def cyResp : AuthResponse :=
  { token := create_access_token 100 (oidStr 8), user := publicUserView cyDoc }

/-- Fixture: the database state after `signup dbTwo cyCreate`. -/
def dbAfterCy : DB :=
  { users := [annUser, bobUser, cyDoc], txs := [txOne], nextId := 9, now := 100 }

/-- Witness for C1: a concrete signup whose token resolves to the new user. -/
theorem signup_token_resolves_created_user_witness :
    cyResp.token.sub = some (oidStr dbTwo.nextId) ∧
    ∃ newUser : UserDoc,
      dbAfterCy.users = dbTwo.users ++ [newUser] ∧
      newUser._id = dbTwo.nextId ∧
      cyResp.user = publicUserView newUser ∧
      get_current_user dbAfterCy cyResp.token = Except.ok newUser :=
  signup_token_resolves_created_user dbTwo cyCreate cyResp dbAfterCy
    (by decide) rfl
